import Mathlib

/-!
Shallow embedding of `server.js` (chaeryeong-guestbook): an Express guestbook
with three endpoints — list (`GET /api/posts`), create (`POST /api/posts`,
multipart with optional `image` file handled by multer), delete
(`DELETE /api/posts/:id`).

Modelling conventions:
* JS strings are modelled as Lean `String`; lengths are counted in Unicode
  code points (`jsLength`).  JS `String.prototype.length` counts UTF-16 code
  units; the two agree on all BMP text (including the Hangul range the code
  cares about), and no claim distinguishes them.
* `String.prototype.trim` is modelled by `jsTrim`, trimming the common JS
  whitespace characters (space, tab, LF, CR, VT, FF, NBSP).
* `Date.now()` values are abstract `Nat` parameters.
* The SQLite table is a `Db`: a list of rows in insertion (rowid) order plus
  the next AUTOINCREMENT id.  `ORDER BY created_at DESC` is modelled as a
  stable insertion sort on `created_at` descending.
* Fallible sqlite callbacks (`err` parameters) are modelled by explicit
  boolean fault parameters; `fs.unlink`'s outcome is an oracle
  `List String → UnlinkOutcome` receiving the resolved path.
* Node's `path.extname` / `path.basename` (posix) are translated from their
  documented scanning semantics; `path.join(__dirname, "public", rel)` is
  modelled relative to `__dirname` by segment splitting plus `..`/`.`
  normalisation (`resolveUnderDirname`).
-/

set_option maxRecDepth 40000

namespace Guestbook

/-- Code points treated as whitespace by the model of JS `trim()`. -/
def jsWhitespace (c : Char) : Bool :=
  c = ' ' || c = '\t' || c = '\n' || c = '\r' || c = '\x0b' || c = '\x0c' || c = ' '

/-- Model of JS `s.trim()`: strip leading and trailing whitespace. -/
def jsTrim (s : String) : String :=
  String.mk (((s.data.dropWhile jsWhitespace).reverse.dropWhile jsWhitespace).reverse)

/-- Model of JS `s.length` (in code points; see header note). -/
def jsLength (s : String) : Nat :=
  s.data.length

/-- Emptiness test on strings (JS falsiness of a string value). -/
def strEmpty (s : String) : Bool :=
  s.data.isEmpty

/-- The last path component of `p`: trailing `/` stripped, then the suffix
after the last remaining `/`.  This is the portion Node's posix
`path.extname`/`path.basename` operate on. -/
def lastPart (p : String) : List Char :=
  (((p.data.reverse).dropWhile (fun c => c == '/')).takeWhile (fun c => c != '/')).reverse

/-- Index of the rightmost `'.'` in a character list, if any. -/
def lastDotIdx : List Char → Option Nat
  | [] => none
  | c :: cs =>
    match lastDotIdx cs with
    | some i => some (i + 1)
    | none => if c == '.' then some 0 else none

/-- Node `path.extname` (posix): the extension of the last path component,
from its last `'.'` to its end; `""` when there is no dot, when the only dot
leads the component (dotfiles), or when the component is `".."`. -/
def extname (p : String) : String :=
  match lastDotIdx (lastPart p) with
  | none => ""
  | some i =>
    if i == 0 then ""
    else if lastPart p == ['.', '.'] then ""
    else String.mk ((lastPart p).drop i)

/-- Node `path.basename p ext` (posix), for suffixes not containing `/`
(the only way the source calls it: `ext` is always an `extname` result):
the last component of `p`, with a proper suffix `ext` stripped. -/
def basename (p : String) (ext : String) : String :=
  if strEmpty ext then String.mk (lastPart p)
  else if p == ext then ""
  else if lastPart p == ext.data then String.mk (lastPart p)
  else if ext.data.isSuffixOf (lastPart p) then
    String.mk ((lastPart p).take ((lastPart p).length - ext.data.length))
  else String.mk (lastPart p)

/-- The character allowlist of the sanitization regex
`/[^a-zA-Z0-9가-힣_-]/g` in the multer `filename` callback. -/
def allowedChar (c : Char) : Bool :=
  decide (('a' ≤ c ∧ c ≤ 'z') ∨ ('A' ≤ c ∧ c ≤ 'Z') ∨ ('0' ≤ c ∧ c ≤ '9') ∨
    ('가' ≤ c ∧ c ≤ '힣') ∨ c = '_' ∨ c = '-')

/-- `base.replace(/[^a-zA-Z0-9가-힣_-]/g, "")`: keep only allowed chars. -/
def sanitizeBase (s : String) : String :=
  String.mk (s.data.filter allowedChar)

/-- The multer `diskStorage.filename` callback: for an upload with original
name `originalname` at time `ts`, the stored filename
`${Date.now()}_${safeBase || "img"}${ext}`. -/
def multerFilename (originalname : String) (ts : Nat) : String :=
  let ext := extname originalname
  let base := basename originalname ext
  let safeBase := sanitizeBase base
  Nat.repr ts ++ "_" ++ (if strEmpty safeBase then "img" else safeBase) ++ ext

/-- A row of the `posts` table / a JSON post object. -/
structure Post where
  id : Nat
  name : String
  message : String
  image_path : Option String
  created_at : Nat
deriving DecidableEq

/-- The `posts` table: rows in rowid (insertion) order, plus the next
AUTOINCREMENT id. -/
structure Db where
  rows : List Post
  nextId : Nat
deriving DecidableEq

/-- Comparator of `ORDER BY created_at DESC`: `a` may precede `b` iff `b`'s
timestamp is no newer than `a`'s. -/
def newerFirst (a b : Post) : Prop :=
  b.created_at ≤ a.created_at

instance : DecidableRel newerFirst :=
  fun a b => inferInstanceAs (Decidable (b.created_at ≤ a.created_at))

instance : IsTotal Post newerFirst :=
  ⟨fun a b => Nat.le_total b.created_at a.created_at⟩

instance : IsTrans Post newerFirst :=
  ⟨fun _ _ _ hab hbc => Nat.le_trans hbc hab⟩

/-- `GET /api/posts`: `SELECT id, name, message, image_path, created_at FROM
posts ORDER BY created_at DESC` — a stable sort of the rows, newest first. -/
def listPosts (db : Db) : List Post :=
  List.insertionSort newerFirst db.rows

/-- Outcome of the create endpoint. -/
inductive CreateResult where
  | badRequest (error : String)
  | serverError (error : String)
  | created (post : Post)
deriving DecidableEq

/-- HTTP status attached to a create outcome. -/
def CreateResult.status : CreateResult → Nat
  | .badRequest _ => 400
  | .serverError _ => 500
  | .created _ => 201

/-- JS `!field || !field.trim()` on a possibly-absent form field. -/
def fieldBlank : Option String → Bool
  | none => true
  | some s => strEmpty s || strEmpty (jsTrim s)

/-- Line 78: `!name || !message || !name.trim() || !message.trim()`. -/
def missingFields (name message : Option String) : Bool :=
  fieldBlank name || fieldBlank message

/-- The `POST /api/posts` handler body (after the multer middleware):
`name`/`message` are the form fields (absent = `none`), `file` is
`req.file?.filename`, `now` is `Date.now()`, `insertErr` tells whether the
`INSERT` callback receives an error. -/
def createHandler (name message : Option String) (file : Option String)
    (now : Nat) (insertErr : Bool) (db : Db) : CreateResult × Db :=
  if missingFields name message then
    (.badRequest "이름과 메시지를 모두 입력해 주세요.", db)
  else if jsLength (message.getD "") > 300 then
    (.badRequest "메시지는 300자 이내로 작성해 주세요.", db)
  else
    let imagePath := file.map (fun f => "/uploads/" ++ f)
    if insertErr then
      (.serverError "메시지 저장 중 오류", db)
    else
      let post : Post :=
        ⟨db.nextId, jsTrim (name.getD ""), jsTrim (message.getD ""), imagePath, now⟩
      (.created post, ⟨db.rows ++ [post], db.nextId + 1⟩)

/-- Result of the whole create request: the multer middleware has already
saved the uploaded file (if any) into the media store, then the handler ran.
`origName` is the upload's original name, `tsFile` the `Date.now()` of the
filename callback, `media` the set of files in the upload directory. -/
structure CreateRun where
  result : CreateResult
  db : Db
  media : List String
deriving DecidableEq

/-- `upload.single("image")` followed by the handler: the file is written to
the upload directory before validation runs, and never removed by this
route. -/
def processCreateRequest (name message : Option String) (origName : Option String)
    (tsFile now : Nat) (insertErr : Bool) (db : Db) (media : List String) : CreateRun :=
  let savedFile := origName.map (fun o => multerFilename o tsFile)
  let media' := media ++ (match savedFile with | none => [] | some f => [f])
  let (res, db') := createHandler name message savedFile now insertErr db
  ⟨res, db', media'⟩

/-- `imagePath.replace(/^\/+/, "")`: strip leading slashes. -/
def stripLeadingSlashes (s : String) : String :=
  String.mk (s.data.dropWhile (fun c => c == '/'))

/-- Split a character list on `'/'` (used to model `path.join`'s
normalisation of its joined argument). -/
def splitSlash : List Char → List (List Char)
  | [] => [[]]
  | c :: cs =>
    match splitSlash cs with
    | [] => [[]]
    | g :: gs => if c == '/' then [] :: g :: gs else (c :: g) :: gs

/-- Path segments of a string. -/
def pathSegments (s : String) : List String :=
  (splitSlash s.data).map String.mk

/-- One step of path normalisation: empty and `"."` segments vanish, `".."`
pops the previous segment (or climbs above the base when none is left).
The accumulator holds segments in reverse order. -/
def normStep (acc : List String) (seg : String) : List String :=
  if seg == "" || seg == "." then acc
  else if seg == ".." then
    match acc with
    | [] => [".."]
    | a :: rest => if a == ".." then seg :: acc else rest
  else seg :: acc

/-- Line 132: `path.join(__dirname, "public", rel)`, expressed as the list of
normalised path segments below `__dirname`.  A leading `".."` in the result
means the resolved path escaped `__dirname`. -/
def resolveUnderDirname (rel : String) : List String :=
  (("public" :: pathSegments rel).foldl normStep []).reverse

/-- The segment-list form of a path strictly inside the upload directory
`__dirname/public/uploads`. -/
def insideUploadDir (segs : List String) : Prop :=
  segs.take 2 = ["public", "uploads"] ∧ 2 < segs.length

/-- Outcome of `fs.unlink` on a path, as seen by its callback. -/
inductive UnlinkOutcome where
  | ok
  | enoent
  | err (msg : String)
deriving DecidableEq

/-- Outcome of the delete endpoint. -/
inductive DeleteResult where
  | notFound (error : String)
  | serverError (error : String)
  | success
deriving DecidableEq

/-- HTTP status attached to a delete outcome. -/
def DeleteResult.status : DeleteResult → Nat
  | .notFound _ => 404
  | .serverError _ => 500
  | .success => 200

/-- Everything observable about one run of the delete handler: the response,
the table afterwards, the paths passed to `fs.unlink`, and the warnings
logged by the unlink callback. -/
structure DeleteRun where
  result : DeleteResult
  db : Db
  unlinkAttempts : List (List String)
  warnings : List String
deriving DecidableEq

/-- The `DELETE /api/posts/:id` handler: `SELECT image_path` (failing iff
`getErr`), 404 when no row matches, `DELETE` the row (failing iff `runErr`),
then best-effort `fs.unlink` of the resolved image path, whose outcome
`fsys fullPath` only ever produces a warning. -/
def deleteHandler (id : Nat) (getErr runErr : Bool)
    (fsys : List String → UnlinkOutcome) (db : Db) : DeleteRun :=
  if getErr then ⟨.serverError "삭제 중 오류", db, [], []⟩
  else
    match db.rows.find? (fun p => p.id == id) with
    | none => ⟨.notFound "해당 글을 찾을 수 없습니다.", db, [], []⟩
    | some row =>
      if runErr then ⟨.serverError "글 삭제 중 오류", db, [], []⟩
      else
        let db' : Db := ⟨db.rows.filter (fun p => p.id != id), db.nextId⟩
        match row.image_path with
        | none => ⟨.success, db', [], []⟩
        | some ip =>
          let fullPath := resolveUnderDirname (stripLeadingSlashes ip)
          match fsys fullPath with
          | .err msg => ⟨.success, db', [fullPath], ["⚠ 이미지 파일 삭제 실패: " ++ msg]⟩
          | _ => ⟨.success, db', [fullPath], []⟩

/-! ### Helper lemmas -/

theorem data_append (s t : String) : (s ++ t).data = s.data ++ t.data :=
  rfl

theorem strEmpty_false_iff (s : String) : strEmpty s = false ↔ s ≠ "" := by
  cases s with
  | mk l =>
    cases l with
    | nil => simp [strEmpty]
    | cons c cs =>
      constructor
      · intro _ he
        exact (List.cons_ne_nil c cs) (congrArg String.data he)
      · intro _
        rfl

theorem digitChar_isDigit (r : Nat) (h : r < 10) : (Nat.digitChar r).isDigit = true := by
  interval_cases r <;> decide

theorem toDigitsCore_isDigit (fuel : Nat) : ∀ (n : Nat) (acc : List Char),
    (∀ c ∈ acc, c.isDigit = true) → ∀ c ∈ Nat.toDigitsCore 10 fuel n acc, c.isDigit = true := by
  induction fuel with
  | zero =>
    intro n acc h c hc
    exact h c hc
  | succ f ih =>
    intro n acc h c hc
    simp only [Nat.toDigitsCore] at hc
    by_cases h0 : n / 10 = 0
    · rw [if_pos h0] at hc
      rcases List.mem_cons.mp hc with h1 | h1
      · subst h1
        exact digitChar_isDigit _ (Nat.mod_lt n (by decide))
      · exact h _ h1
    · rw [if_neg h0] at hc
      refine ih _ _ (fun d hd => ?_) c hc
      rcases List.mem_cons.mp hd with h1 | h1
      · subst h1
        exact digitChar_isDigit _ (Nat.mod_lt n (by decide))
      · exact h _ h1

theorem natRepr_isDigit (n : Nat) : ∀ c ∈ (Nat.repr n).data, c.isDigit = true := by
  have he : (Nat.repr n).data = Nat.toDigits 10 n := rfl
  rw [he]
  exact toDigitsCore_isDigit _ _ _ (by simp)

theorem digit_ne_slash (c : Char) (h : c.isDigit = true) : c ≠ '/' := by
  intro he
  subst he
  exact absurd h (by decide)

theorem allowedChar_ne_slash (c : Char) (h : allowedChar c = true) : c ≠ '/' := by
  intro he
  subst he
  exact absurd h (by decide)

theorem sanitizeBase_allowed (s : String) (c : Char) (h : c ∈ (sanitizeBase s).data) :
    allowedChar c = true :=
  (List.mem_filter.mp h).2

theorem lastPart_no_slash (p : String) (c : Char) (h : c ∈ lastPart p) : c ≠ '/' := by
  unfold lastPart at h
  rw [List.mem_reverse] at h
  have := List.mem_takeWhile_imp h
  simpa using this

theorem extname_no_slash (p : String) (c : Char) (h : c ∈ (extname p).data) : c ≠ '/' := by
  unfold extname at h
  cases hd : lastDotIdx (lastPart p) with
  | none =>
    rw [hd] at h
    simp at h
  | some i =>
    rw [hd] at h
    dsimp only at h
    by_cases h1 : (i == 0) = true
    · rw [if_pos h1] at h
      simp at h
    · rw [if_neg h1] at h
      by_cases h2 : (lastPart p == ['.', '.']) = true
      · rw [if_pos h2] at h
        simp at h
      · rw [if_neg h2] at h
        exact lastPart_no_slash p c (List.mem_of_mem_drop h)

theorem mem_img_allowed (c : Char) (h : c ∈ ("img" : String).data) : allowedChar c = true := by
  rw [show ("img" : String).data = ['i', 'm', 'g'] from rfl] at h
  simp at h
  rcases h with rfl | rfl | rfl <;> decide

theorem multer_data (orig : String) (ts : Nat) :
    (multerFilename orig ts).data =
      (Nat.repr ts).data ++ '_' ::
        ((if strEmpty (sanitizeBase (basename orig (extname orig))) then "img"
          else sanitizeBase (basename orig (extname orig))).data ++ (extname orig).data) := by
  simp [multerFilename, data_append]

theorem multer_no_slash (orig : String) (ts : Nat) :
    ∀ c ∈ (multerFilename orig ts).data, c ≠ '/' := by
  intro c hc
  rw [multer_data] at hc
  rcases List.mem_append.mp hc with h | h
  · exact digit_ne_slash c (natRepr_isDigit ts c h)
  · rcases List.mem_cons.mp h with h | h
    · subst h
      decide
    · rcases List.mem_append.mp h with h | h
      · split_ifs at h
        · exact allowedChar_ne_slash c (mem_img_allowed c h)
        · exact allowedChar_ne_slash c (sanitizeBase_allowed _ c h)
      · exact extname_no_slash orig c h

theorem underscore_mem_multer (orig : String) (ts : Nat) :
    '_' ∈ (multerFilename orig ts).data := by
  rw [multer_data]
  simp

theorem multer_ne_empty (orig : String) (ts : Nat) : multerFilename orig ts ≠ "" := by
  intro he
  have hm := underscore_mem_multer orig ts
  rw [he] at hm
  revert hm
  decide

theorem multer_ne_dot (orig : String) (ts : Nat) : multerFilename orig ts ≠ "." := by
  intro he
  have hm := underscore_mem_multer orig ts
  rw [he] at hm
  revert hm
  decide

theorem multer_ne_dotdot (orig : String) (ts : Nat) : multerFilename orig ts ≠ ".." := by
  intro he
  have hm := underscore_mem_multer orig ts
  rw [he] at hm
  revert hm
  decide

theorem splitSlash_ne_nil (l : List Char) : splitSlash l ≠ [] := by
  induction l with
  | nil => simp [splitSlash]
  | cons c cs ih =>
    cases h : splitSlash cs with
    | nil => exact absurd h ih
    | cons g gs => by_cases hc : (c == '/') = true <;> simp [splitSlash, h, hc]

theorem splitSlash_no_slash (l : List Char) (h : ∀ c ∈ l, c ≠ '/') : splitSlash l = [l] := by
  induction l with
  | nil => rfl
  | cons c cs ih =>
    have hc : (c == '/') = false := beq_eq_false_iff_ne.mpr (h c (by simp))
    have ihh := ih (fun d hd => h d (List.mem_cons_of_mem _ hd))
    simp [splitSlash, ihh, hc]

theorem splitSlash_append (l1 l2 : List Char) (h : ∀ c ∈ l1, c ≠ '/') :
    splitSlash (l1 ++ '/' :: l2) = l1 :: splitSlash l2 := by
  induction l1 with
  | nil =>
    cases hs : splitSlash l2 with
    | nil => exact absurd hs (splitSlash_ne_nil l2)
    | cons g gs => simp [splitSlash, hs]
  | cons c cs ih =>
    have hc : (c == '/') = false := beq_eq_false_iff_ne.mpr (h c (by simp))
    have ihh := ih (fun d hd => h d (List.mem_cons_of_mem _ hd))
    simp [splitSlash, ihh, hc]

theorem resolve_stored (fname : String) (h0 : fname ≠ "") (h1 : fname ≠ ".")
    (h2 : fname ≠ "..") (hns : ∀ c ∈ fname.data, c ≠ '/') :
    resolveUnderDirname (stripLeadingSlashes ("/uploads/" ++ fname)) =
      ["public", "uploads", fname] := by
  have hdata : ("/uploads/" ++ fname).data = '/' :: 'u' :: ("ploads/".data ++ fname.data) := rfl
  have hdrop : (stripLeadingSlashes ("/uploads/" ++ fname)).data =
      "uploads".data ++ '/' :: fname.data := by
    show ("/uploads/" ++ fname).data.dropWhile (fun c => c == '/') = _
    rw [hdata, List.dropWhile_cons, if_pos (by decide), List.dropWhile_cons,
      if_neg (by decide)]
    rfl
  have hsegs : pathSegments (stripLeadingSlashes ("/uploads/" ++ fname)) =
      ["uploads", fname] := by
    unfold pathSegments
    rw [hdrop, splitSlash_append _ _ (by decide), splitSlash_no_slash _ hns]
    rfl
  unfold resolveUnderDirname
  rw [hsegs]
  have e0 : (fname == "") = false := beq_eq_false_iff_ne.mpr h0
  have e1 : (fname == ".") = false := beq_eq_false_iff_ne.mpr h1
  have e2 : (fname == "..") = false := beq_eq_false_iff_ne.mpr h2
  simp [normStep, e0, e1, e2]

/-! ### Claim theorems -/

/-- Claim C2 (confirmed): every stored `image_path` value — i.e. every value
the create flow can store, `"/uploads/" ++ multerFilename orig ts` — resolves,
through the delete handler's file-removal computation
`path.join(__dirname, "public", imagePath.replace(/^\/+/, ""))`, to the path
`__dirname/public/uploads/<filename>`, strictly inside the upload directory;
hence no unlink of a stored path ever touches a file outside the upload
directory.  (No stored value contains a `..` segment — the sanitized filename
has no `/` and is never `.` or `..` — so the escape-rejection clause of the
claim is vacuously satisfied on the claim's domain.) -/
theorem c2_stored_image_path_confined (orig : String) (ts : Nat) :
    resolveUnderDirname (stripLeadingSlashes ("/uploads/" ++ multerFilename orig ts)) =
      ["public", "uploads", multerFilename orig ts] ∧
    insideUploadDir
      (resolveUnderDirname (stripLeadingSlashes ("/uploads/" ++ multerFilename orig ts))) := by
  have hr := resolve_stored _ (multer_ne_empty orig ts) (multer_ne_dot orig ts)
    (multer_ne_dotdot orig ts) (multer_no_slash orig ts)
  refine ⟨hr, ?_⟩
  rw [hr]
  exact ⟨rfl, by simp⟩

/-- Claim C3 (confirmed): the stored filename of every upload is
`<timestamp>_<safeBase><ext>`, where `safeBase` is the original base name
stripped to the allowlist `[A-Za-z0-9_-]` plus the Hangul range `가-힣`,
replaced by `"img"` when stripping empties it — so `safeBase` is non-empty
and drawn from the allowlist — and `ext` is the original extension,
appended unchanged. -/
theorem c3_stored_filename_shape (orig : String) (ts : Nat) :
    ∃ safeBase : String,
      multerFilename orig ts = Nat.repr ts ++ "_" ++ safeBase ++ extname orig ∧
      safeBase ≠ "" ∧
      (∀ c ∈ safeBase.data, allowedChar c = true) ∧
      safeBase = (if strEmpty (sanitizeBase (basename orig (extname orig))) then "img"
        else sanitizeBase (basename orig (extname orig))) := by
  refine ⟨_, rfl, ?_, ?_, rfl⟩
  · split_ifs with hb
    · decide
    · exact (strEmpty_false_iff _).mp (by simpa using hb)
  · intro c hc
    split_ifs at hc with hb
    · exact mem_img_allowed c hc
    · exact sanitizeBase_allowed _ c hc

/-- Claim C4 (confirmed): for every table state the list endpoint returns a
permutation of the stored rows sorted by `created_at` descending (newest
first), the empty list on an empty table; and a table holding posts A, B, C
inserted in sequence with increasing timestamps lists as C, B, A. -/
theorem c4_list_ordering (db : Db) (a b c : Post) (nid : Nat)
    (h1 : a.created_at < b.created_at) (h2 : b.created_at < c.created_at) :
    (listPosts db).Perm db.rows ∧
    (listPosts db).Sorted newerFirst ∧
    listPosts ⟨[], nid⟩ = [] ∧
    listPosts ⟨[a, b, c], nid⟩ = [c, b, a] := by
  refine ⟨List.perm_insertionSort _ _, List.sorted_insertionSort _ _, rfl, ?_⟩
  · have nab : ¬ newerFirst a b := not_le.mpr h1
    have nac : ¬ newerFirst a c := not_le.mpr (h1.trans h2)
    have nbc : ¬ newerFirst b c := not_le.mpr h2
    simp [listPosts, List.insertionSort, List.orderedInsert, nab, nac, nbc]

/-- Witness for C4 at concrete posts. -/
theorem c4_list_ordering_witness :
    ((⟨1, "A", "a", none, 10⟩ : Post).created_at < (⟨2, "B", "b", none, 20⟩ : Post).created_at) ∧
    ((⟨2, "B", "b", none, 20⟩ : Post).created_at < (⟨3, "C", "c", none, 30⟩ : Post).created_at) ∧
    ((listPosts ⟨[⟨1, "A", "a", none, 10⟩], 2⟩).Perm (Db.rows ⟨[⟨1, "A", "a", none, 10⟩], 2⟩) ∧
     (listPosts ⟨[⟨1, "A", "a", none, 10⟩], 2⟩).Sorted newerFirst ∧
     listPosts ⟨[], 4⟩ = [] ∧
     listPosts ⟨[⟨1, "A", "a", none, 10⟩, ⟨2, "B", "b", none, 20⟩, ⟨3, "C", "c", none, 30⟩], 4⟩ =
       [⟨3, "C", "c", none, 30⟩, ⟨2, "B", "b", none, 20⟩, ⟨1, "A", "a", none, 10⟩]) :=
  ⟨by decide, by decide,
    c4_list_ordering ⟨[⟨1, "A", "a", none, 10⟩], 2⟩ ⟨1, "A", "a", none, 10⟩
      ⟨2, "B", "b", none, 20⟩ ⟨3, "C", "c", none, 30⟩ 4 (by decide) (by decide)⟩

/-- Claim C5 (confirmed): a create request in which `name` or `message` is
absent, empty, or all-whitespace after trimming is answered with the 400
missing-fields error and the table is left unchanged (no row inserted). -/
theorem c5_missing_fields_rejected (name message : Option String) (file : Option String)
    (now : Nat) (insertErr : Bool) (db : Db)
    (h : name = none ∨ message = none ∨ (∃ s, name = some s ∧ jsTrim s = "") ∨
      (∃ s, message = some s ∧ jsTrim s = "")) :
    createHandler name message file now insertErr db =
      (.badRequest "이름과 메시지를 모두 입력해 주세요.", db) ∧
    (createHandler name message file now insertErr db).1.status = 400 := by
  have hm : missingFields name message = true := by
    rcases h with h | h | ⟨s, hs, ht⟩ | ⟨s, hs, ht⟩
    · subst h
      rfl
    · subst h
      simp [missingFields, fieldBlank]
    · subst hs
      simp [missingFields, fieldBlank, ht, show strEmpty "" = true from rfl]
    · subst hs
      simp [missingFields, fieldBlank, ht, show strEmpty "" = true from rfl]
  have he : createHandler name message file now insertErr db =
      (.badRequest "이름과 메시지를 모두 입력해 주세요.", db) := by
    simp [createHandler, hm]
  exact ⟨he, by rw [he]; rfl⟩

/-- Witness for C5: an all-whitespace name is rejected with 400. -/
theorem c5_missing_fields_rejected_witness :
    ((some " " = (none : Option String)) ∨ (some "hi" = (none : Option String)) ∨
      (∃ s, some " " = some s ∧ jsTrim s = "") ∨ (∃ s, some "hi" = some s ∧ jsTrim s = "")) ∧
    (createHandler (some " ") (some "hi") none 0 false ⟨[], 1⟩ =
      (.badRequest "이름과 메시지를 모두 입력해 주세요.", ⟨[], 1⟩) ∧
     (createHandler (some " ") (some "hi") none 0 false ⟨[], 1⟩).1.status = 400) :=
  ⟨Or.inr (Or.inr (Or.inl ⟨" ", rfl, by decide⟩)),
    c5_missing_fields_rejected (some " ") (some "hi") none 0 false ⟨[], 1⟩
      (Or.inr (Or.inr (Or.inl ⟨" ", rfl, by decide⟩)))⟩

/-- Claim C1, amended (corrected): past the missing-fields check, the create
request is rejected with 400 iff the RAW (untrimmed) message length exceeds
300 — the code tests `message.length > 300` before trimming — and on that
rejection the table is unchanged.  The original claim's "trimmed length"
reading fails: see `c1_counterexample`. -/
theorem c1_amended_length_check (name message : Option String) (file : Option String)
    (now : Nat) (insertErr : Bool) (db : Db)
    (h : missingFields name message = false) :
    ((createHandler name message file now insertErr db).1.status = 400 ↔
      300 < jsLength (message.getD "")) ∧
    (300 < jsLength (message.getD "") →
      createHandler name message file now insertErr db =
        (.badRequest "메시지는 300자 이내로 작성해 주세요.", db)) := by
  constructor
  · constructor
    · intro hs
      by_contra hlen
      cases hb : insertErr <;>
        simp [createHandler, h, hlen, hb, CreateResult.status] at hs
    · intro hlen
      simp [createHandler, h, hlen, CreateResult.status]
  · intro hlen
    simp [createHandler, h, hlen]

/-- Witness for the amended C1 at a short message. -/
theorem c1_amended_length_check_witness :
    missingFields (some "kim") (some "hello") = false ∧
    ((((createHandler (some "kim") (some "hello") none 0 false ⟨[], 1⟩).1.status = 400) ↔
       300 < jsLength ((some "hello").getD "")) ∧
     (300 < jsLength ((some "hello").getD "") →
       createHandler (some "kim") (some "hello") none 0 false ⟨[], 1⟩ =
         (.badRequest "메시지는 300자 이내로 작성해 주세요.", ⟨[], 1⟩))) :=
  ⟨by decide,
    c1_amended_length_check (some "kim") (some "hello") none 0 false ⟨[], 1⟩ (by decide)⟩

/-- A message of 300 `'a'`s followed by one trailing space: trimmed length
exactly 300, raw length 301. -/
def cxMessage : String :=
  String.mk (List.replicate 300 'a' ++ [' '])

/-- Counterexample to claim C1 as stated: a create request whose trimmed
message length is exactly 300 (not `> 300`) is nevertheless rejected with
400, because the code measures the raw length (301 here) before trimming. -/
theorem c1_counterexample :
    (createHandler (some "kim") (some cxMessage) none 0 false ⟨[], 1⟩).1.status = 400 ∧
    jsLength (jsTrim cxMessage) = 300 ∧
    ¬ 300 < jsLength (jsTrim cxMessage) := by
  refine ⟨?_, ?_, ?_⟩ <;> decide

/-- Claim C6 (confirmed): deleting an id with no matching row answers 404 and
changes nothing (no row removed, no unlink, no warning); and once a delete of
an id has succeeded, a second delete of the same id observes the 404
not-found error, never a second success. -/
theorem c6_delete_not_found (db : Db) (id : Nat)
    (fsys fsys2 : List String → UnlinkOutcome) :
    ((∀ p ∈ db.rows, p.id ≠ id) →
      deleteHandler id false false fsys db =
        ⟨.notFound "해당 글을 찾을 수 없습니다.", db, [], []⟩) ∧
    ((deleteHandler id false false fsys db).result = .success →
      (deleteHandler id false false fsys2 (deleteHandler id false false fsys db).db).result =
        .notFound "해당 글을 찾을 수 없습니다.") := by
  constructor
  · intro h
    have hf : db.rows.find? (fun p => p.id == id) = none :=
      List.find?_eq_none.mpr (fun p hp => by simpa using h p hp)
    simp [deleteHandler, hf]
  · intro hs
    cases hf : db.rows.find? (fun p => p.id == id) with
    | none => simp [deleteHandler, hf] at hs
    | some row =>
      have hdb : (deleteHandler id false false fsys db).db =
          ⟨db.rows.filter (fun p => p.id != id), db.nextId⟩ := by
        cases hip : row.image_path with
        | none => simp [deleteHandler, hf, hip]
        | some ip =>
          cases hout : fsys (resolveUnderDirname (stripLeadingSlashes ip)) <;>
            simp [deleteHandler, hf, hip, hout]
      rw [hdb]
      have hf2 : (db.rows.filter (fun p => p.id != id)).find? (fun p => p.id == id) = none := by
        refine List.find?_eq_none.mpr (fun p hp => ?_)
        have hne := (List.mem_filter.mp hp).2
        simp at hne ⊢
        exact hne
      simp [deleteHandler, hf2]

/-- Witness for C6: deleting a missing id from a one-row table yields 404 and
changes nothing; re-deleting id 1 after its successful delete yields 404. -/
theorem c6_delete_not_found_witness :
    (deleteHandler 9 false false (fun _ => .ok) ⟨[⟨1, "A", "a", none, 5⟩], 2⟩ =
      ⟨.notFound "해당 글을 찾을 수 없습니다.", ⟨[⟨1, "A", "a", none, 5⟩], 2⟩, [], []⟩) ∧
    ((deleteHandler 1 false false (fun _ => .ok)
        (deleteHandler 1 false false (fun _ => .ok) ⟨[⟨1, "A", "a", none, 5⟩], 2⟩).db).result =
      .notFound "해당 글을 찾을 수 없습니다.") :=
  ⟨(c6_delete_not_found ⟨[⟨1, "A", "a", none, 5⟩], 2⟩ 9 (fun _ => .ok) (fun _ => .ok)).1
      (by decide),
    (c6_delete_not_found ⟨[⟨1, "A", "a", none, 5⟩], 2⟩ 1 (fun _ => .ok) (fun _ => .ok)).2
      (by decide)⟩

/-- Claim C7 (confirmed): once the row of an existing post is deleted, the
response is success regardless of the unlink outcome — the table result and
the response do not depend on the filesystem oracle; a missing file
(`ENOENT`) logs nothing, any other unlink error logs a warning but the
response stays success. -/
theorem c7_delete_success_independent_of_unlink (db : Db) (id : Nat) (row : Post)
    (f g : List String → UnlinkOutcome) (m : String)
    (hrow : db.rows.find? (fun p => p.id == id) = some row) :
    (deleteHandler id false false f db).result = .success ∧
    (deleteHandler id false false f db).result = (deleteHandler id false false g db).result ∧
    (deleteHandler id false false f db).db = (deleteHandler id false false g db).db ∧
    (deleteHandler id false false (fun _ => .enoent) db).warnings = [] ∧
    (deleteHandler id false false (fun _ => .err m) db).warnings =
      (match row.image_path with
        | some _ => ["⚠ 이미지 파일 삭제 실패: " ++ m]
        | none => []) := by
  refine ⟨?_, ?_, ?_, ?_, ?_⟩
  · cases hip : row.image_path with
    | none => simp [deleteHandler, hrow, hip]
    | some ip =>
      cases hout : f (resolveUnderDirname (stripLeadingSlashes ip)) <;>
        simp [deleteHandler, hrow, hip, hout]
  · cases hip : row.image_path with
    | none => simp [deleteHandler, hrow, hip]
    | some ip =>
      cases hout : f (resolveUnderDirname (stripLeadingSlashes ip)) <;>
        cases hout2 : g (resolveUnderDirname (stripLeadingSlashes ip)) <;>
          simp [deleteHandler, hrow, hip, hout, hout2]
  · cases hip : row.image_path with
    | none => simp [deleteHandler, hrow, hip]
    | some ip =>
      cases hout : f (resolveUnderDirname (stripLeadingSlashes ip)) <;>
        cases hout2 : g (resolveUnderDirname (stripLeadingSlashes ip)) <;>
          simp [deleteHandler, hrow, hip, hout, hout2]
  · cases hip : row.image_path with
    | none => simp [deleteHandler, hrow, hip]
    | some ip => simp [deleteHandler, hrow, hip]
  · cases hip : row.image_path with
    | none => simp [deleteHandler, hrow, hip]
    | some ip => simp [deleteHandler, hrow, hip]

/-- Witness for C7 on a post with an image, with a failing unlink on one side
and a successful one on the other. -/
theorem c7_delete_success_independent_of_unlink_witness :
    ((Db.rows ⟨[⟨1, "A", "a", some "/uploads/x.png", 5⟩], 2⟩).find?
        (fun p => p.id == 1) = some ⟨1, "A", "a", some "/uploads/x.png", 5⟩) ∧
    ((deleteHandler 1 false false (fun _ => .err "EACCES")
        ⟨[⟨1, "A", "a", some "/uploads/x.png", 5⟩], 2⟩).result = .success ∧
     (deleteHandler 1 false false (fun _ => .err "EACCES")
        ⟨[⟨1, "A", "a", some "/uploads/x.png", 5⟩], 2⟩).result =
       (deleteHandler 1 false false (fun _ => .ok)
        ⟨[⟨1, "A", "a", some "/uploads/x.png", 5⟩], 2⟩).result ∧
     (deleteHandler 1 false false (fun _ => .err "EACCES")
        ⟨[⟨1, "A", "a", some "/uploads/x.png", 5⟩], 2⟩).db =
       (deleteHandler 1 false false (fun _ => .ok)
        ⟨[⟨1, "A", "a", some "/uploads/x.png", 5⟩], 2⟩).db ∧
     (deleteHandler 1 false false (fun _ => .enoent)
        ⟨[⟨1, "A", "a", some "/uploads/x.png", 5⟩], 2⟩).warnings = [] ∧
     (deleteHandler 1 false false (fun _ => .err "EACCES")
        ⟨[⟨1, "A", "a", some "/uploads/x.png", 5⟩], 2⟩).warnings =
       ["⚠ 이미지 파일 삭제 실패: " ++ "EACCES"]) :=
  ⟨by decide,
    c7_delete_success_independent_of_unlink ⟨[⟨1, "A", "a", some "/uploads/x.png", 5⟩], 2⟩ 1
      ⟨1, "A", "a", some "/uploads/x.png", 5⟩ (fun _ => .err "EACCES") (fun _ => .ok)
      "EACCES" (by decide)⟩

/-- Claim C8 (confirmed): the delete is a two-phase sequence with the row
deletion authoritative: when the `DELETE` statement fails, the response is
the 500 server error, the table is unchanged and no unlink is attempted; an
unlink is ever attempted only in a run where both storage steps succeeded. -/
theorem c8_row_deletion_authoritative (db : Db) (id : Nat) (ge re : Bool) (row : Post)
    (f : List String → UnlinkOutcome)
    (hrow : db.rows.find? (fun p => p.id == id) = some row) :
    deleteHandler id false true f db = ⟨.serverError "글 삭제 중 오류", db, [], []⟩ ∧
    ((deleteHandler id ge re f db).unlinkAttempts ≠ [] → ge = false ∧ re = false) := by
  constructor
  · simp [deleteHandler, hrow]
  · intro hne
    cases hg : ge with
    | true =>
      rw [hg] at hne
      simp [deleteHandler] at hne
    | false =>
      cases hr : re with
      | true =>
        rw [hg, hr] at hne
        simp [deleteHandler, hrow] at hne
      | false => exact ⟨rfl, rfl⟩

/-- Witness for C8 on a post with an image: a failing `DELETE` gives 500 with
no unlink, and a fault-free run's unlink attempt indeed happened without
faults. -/
theorem c8_row_deletion_authoritative_witness :
    (deleteHandler 1 false true (fun _ => .ok) ⟨[⟨1, "A", "a", some "/uploads/x.png", 5⟩], 2⟩ =
      ⟨.serverError "글 삭제 중 오류", ⟨[⟨1, "A", "a", some "/uploads/x.png", 5⟩], 2⟩, [], []⟩) ∧
    (false = false ∧ false = false) :=
  ⟨(c8_row_deletion_authoritative ⟨[⟨1, "A", "a", some "/uploads/x.png", 5⟩], 2⟩ 1 false false
      ⟨1, "A", "a", some "/uploads/x.png", 5⟩ (fun _ => .ok) (by decide)).1,
    (c8_row_deletion_authoritative ⟨[⟨1, "A", "a", some "/uploads/x.png", 5⟩], 2⟩ 1 false false
      ⟨1, "A", "a", some "/uploads/x.png", 5⟩ (fun _ => .ok) (by decide)).2 (by decide)⟩

/-- The row the create handler inserts (line 91) and echoes back (line 97). -/
def newPost (db : Db) (n m : String) (file : Option String) (now : Nat) : Post :=
  ⟨db.nextId, jsTrim n, jsTrim m, file.map (fun f => "/uploads/" ++ f), now⟩

/-- Claim C9 (confirmed): a valid create returns 201 with the post carrying
the storage-assigned id, the trimmed name and message, the computed
image path (`none` without an upload) and the creation timestamp; the stored
row is exactly that post, appended to the table, and a subsequent list
contains exactly one entry equal to it. -/
theorem c9_create_success (db : Db) (n m : String) (file : Option String) (now : Nat)
    (hn : jsTrim n ≠ "") (hm : jsTrim m ≠ "") (hlen : jsLength m ≤ 300)
    (hfresh : ∀ p ∈ db.rows, p.id ≠ db.nextId) :
    createHandler (some n) (some m) file now false db =
      (.created (newPost db n m file now),
        ⟨db.rows ++ [newPost db n m file now], db.nextId + 1⟩) ∧
    (CreateResult.created (newPost db n m file now)).status = 201 ∧
    (newPost db n m file now).id = db.nextId ∧
    (newPost db n m file now).name = jsTrim n ∧
    (newPost db n m file now).message = jsTrim m ∧
    (newPost db n m file now).image_path = file.map (fun f => "/uploads/" ++ f) ∧
    (newPost db n m file now).created_at = now ∧
    List.count (newPost db n m file now)
      (listPosts (createHandler (some n) (some m) file now false db).2) = 1 := by
  have hn' : n ≠ "" := fun he => hn (by rw [he]; rfl)
  have hm' : m ≠ "" := fun he => hm (by rw [he]; rfl)
  have e1 : strEmpty n = false := (strEmpty_false_iff n).mpr hn'
  have e2 : strEmpty (jsTrim n) = false := (strEmpty_false_iff _).mpr hn
  have e3 : strEmpty m = false := (strEmpty_false_iff m).mpr hm'
  have e4 : strEmpty (jsTrim m) = false := (strEmpty_false_iff _).mpr hm
  have hmiss : missingFields (some n) (some m) = false := by
    simp [missingFields, fieldBlank, e1, e2, e3, e4]
  have hlt : ¬ jsLength m > 300 := Nat.not_lt.mpr hlen
  have heq : createHandler (some n) (some m) file now false db =
      (.created (newPost db n m file now),
        ⟨db.rows ++ [newPost db n m file now], db.nextId + 1⟩) := by
    simp [createHandler, hmiss, hlt, newPost]
  refine ⟨heq, rfl, rfl, rfl, rfl, rfl, rfl, ?_⟩
  rw [heq]
  have hperm := List.perm_insertionSort newerFirst (db.rows ++ [newPost db n m file now])
  rw [show listPosts ⟨db.rows ++ [newPost db n m file now], db.nextId + 1⟩ =
      List.insertionSort newerFirst (db.rows ++ [newPost db n m file now]) from rfl]
  rw [hperm.count_eq, List.count_append]
  have h0 : List.count (newPost db n m file now) db.rows = 0 :=
    List.count_eq_zero.mpr (fun hmem => hfresh _ hmem rfl)
  rw [h0]
  simp

/-- Witness for C9 with an uploaded image. -/
theorem c9_create_success_witness :
    jsTrim " kim " ≠ "" ∧ jsTrim " hi " ≠ "" ∧ jsLength " hi " ≤ 300 ∧
    (∀ p ∈ (Db.rows ⟨[], 1⟩), p.id ≠ (Db.nextId ⟨[], 1⟩)) ∧
    (createHandler (some " kim ") (some " hi ") (some "5_img.png") 9 false ⟨[], 1⟩ =
      (.created (newPost ⟨[], 1⟩ " kim " " hi " (some "5_img.png") 9),
        ⟨(Db.rows ⟨[], 1⟩) ++ [newPost ⟨[], 1⟩ " kim " " hi " (some "5_img.png") 9],
          (Db.nextId ⟨[], 1⟩) + 1⟩) ∧
     (CreateResult.created (newPost ⟨[], 1⟩ " kim " " hi " (some "5_img.png") 9)).status = 201 ∧
     (newPost ⟨[], 1⟩ " kim " " hi " (some "5_img.png") 9).id = (Db.nextId ⟨[], 1⟩) ∧
     (newPost ⟨[], 1⟩ " kim " " hi " (some "5_img.png") 9).name = jsTrim " kim " ∧
     (newPost ⟨[], 1⟩ " kim " " hi " (some "5_img.png") 9).message = jsTrim " hi " ∧
     (newPost ⟨[], 1⟩ " kim " " hi " (some "5_img.png") 9).image_path =
       (some "5_img.png").map (fun f => "/uploads/" ++ f) ∧
     (newPost ⟨[], 1⟩ " kim " " hi " (some "5_img.png") 9).created_at = 9 ∧
     List.count (newPost ⟨[], 1⟩ " kim " " hi " (some "5_img.png") 9)
       (listPosts (createHandler (some " kim ") (some " hi ") (some "5_img.png") 9 false
         ⟨[], 1⟩).2) = 1) :=
  ⟨by decide, by decide, by decide, by decide,
    c9_create_success ⟨[], 1⟩ " kim " " hi " (some "5_img.png") 9 (by decide) (by decide)
      (by decide) (by decide)⟩

/-- Claim C10 (confirmed): when a create request carries an upload but fails
validation, the multer middleware has already written the file to the upload
directory before the handler's checks run, the response is 400, the table is
unchanged, and the file is never removed — an orphan no row references. -/
theorem c10_orphaned_upload_on_validation_failure (name message : Option String)
    (orig : String) (tsFile now : Nat) (insertErr : Bool) (db : Db) (media : List String)
    (hbad : missingFields name message = true ∨ 300 < jsLength (message.getD ""))
    (hfresh : ∀ p ∈ db.rows,
      p.image_path ≠ some ("/uploads/" ++ multerFilename orig tsFile)) :
    (processCreateRequest name message (some orig) tsFile now insertErr db media).result.status
        = 400 ∧
    (processCreateRequest name message (some orig) tsFile now insertErr db media).db = db ∧
    multerFilename orig tsFile ∈
      (processCreateRequest name message (some orig) tsFile now insertErr db media).media ∧
    ∀ p ∈ (processCreateRequest name message (some orig) tsFile now insertErr db media).db.rows,
      p.image_path ≠ some ("/uploads/" ++ multerFilename orig tsFile) := by
  have key : ∃ err, processCreateRequest name message (some orig) tsFile now insertErr db media =
      ⟨.badRequest err, db, media ++ [multerFilename orig tsFile]⟩ := by
    by_cases hm : missingFields name message = true
    · exact ⟨"이름과 메시지를 모두 입력해 주세요.",
        by simp [processCreateRequest, createHandler, hm]⟩
    · have hm' : missingFields name message = false := by simpa using hm
      have hlen : 300 < jsLength (message.getD "") := by
        rcases hbad with h | h
        · exact absurd h hm
        · exact h
      exact ⟨"메시지는 300자 이내로 작성해 주세요.",
        by simp [processCreateRequest, createHandler, hm', hlen]⟩
  obtain ⟨err, heq⟩ := key
  rw [heq]
  exact ⟨rfl, rfl, by simp, hfresh⟩

/-- Witness for C10: a create with an upload but no name is rejected with
400 while the sanitized file stays in the media store. -/
theorem c10_orphaned_upload_on_validation_failure_witness :
    (missingFields none (some "hi") = true ∨ 300 < jsLength ((some "hi").getD "")) ∧
    (∀ p ∈ (Db.rows ⟨[], 1⟩),
      p.image_path ≠ some ("/uploads/" ++ multerFilename "evil?.png" 7)) ∧
    ((processCreateRequest none (some "hi") (some "evil?.png") 7 9 false ⟨[], 1⟩
        []).result.status = 400 ∧
     (processCreateRequest none (some "hi") (some "evil?.png") 7 9 false ⟨[], 1⟩ []).db =
       ⟨[], 1⟩ ∧
     multerFilename "evil?.png" 7 ∈
       (processCreateRequest none (some "hi") (some "evil?.png") 7 9 false ⟨[], 1⟩ []).media ∧
     ∀ p ∈ (processCreateRequest none (some "hi") (some "evil?.png") 7 9 false ⟨[], 1⟩
         []).db.rows,
       p.image_path ≠ some ("/uploads/" ++ multerFilename "evil?.png" 7)) :=
  ⟨Or.inl (by decide), by decide,
    c10_orphaned_upload_on_validation_failure none (some "hi") "evil?.png" 7 9 false ⟨[], 1⟩ []
      (Or.inl (by decide)) (by decide)⟩

end Guestbook
